import Mathlib

/-!
Verification of the slot-machine engine in `static/script.js`.

Modelling choices (shallow embedding of the JavaScript source):
* A grid is a `List (List String)`, exactly the array-of-arrays the code
  builds; the empty string `""` stands for the empty (falsy) cell value.
* JavaScript indexing `g[r]` on a missing row throws a TypeError; reading a
  missing column gives `undefined`, which is falsy and compares unequal to
  every non-empty string.  We model a thrown TypeError as `none` of an
  `Option` computation, and an `undefined` cell read as the falsy value `""`
  (observationally equivalent inside `detectWinningLines`, whose guards test
  the first cell of a line for truthiness before any equality can matter).
* `Math.floor(Math.random() * symbols.length)` yields an index in
  `Fin symbols.length`; randomness is modelled by an oracle
  `ρ : Nat → Nat → Fin symbols.length` giving the index chosen for cell
  `(r, c)` of the settled grid.
* The spin and reset click handlers become transition functions on an
  explicit state record (credits counter plus grid); the flash messages a
  handler adds after its initial `clearFlash()` are returned as a list.
-/

namespace SlotMachine

/-- Config constants from the source. -/
def ROWS : Nat := 3

def COLS : Nat := 3

def SPIN_COST : Int := 10

def SINGLE_LINE_REWARD : Int := 50

def MULTI_LINE_REWARD : Int := 100

/-- The symbol alphabet: `['🍒', '🍋', '🍇', '🔔', '⭐', '💎', '7️⃣']`. -/
def symbols : List String := ["🍒", "🍋", "🍇", "🔔", "⭐", "💎", "7️⃣"]

/-- A cell coordinate pair `[r, c]`. -/
abbrev Coord := Nat × Nat

/-- A Line is the array of three coordinate pairs pushed by the source. -/
abbrev Line := List Coord

/-- Read index `c` of a row array: `row[c]`, with `undefined` (out of
bounds) modelled as the falsy value `""`. -/
def cellD (row : List String) (c : Nat) : String :=
  (row.get? c).getD ""

/-- Total cell accessor `g[r][c]` used in specification statements: a
missing row also reads as `""`. -/
def cellVal (g : List (List String)) (r c : Nat) : String :=
  cellD ((g.get? r).getD []) c

/-- `detectWinningLines(g)` from the source: rows top to bottom, then
columns left to right, then the two diagonals.  Each guard is the literal
translation of `g[r][0] && g[r][0] === g[r][1] && g[r][1] === g[r][2]`
(truthiness of the first cell, then the two strict equalities).  Accessing
`g[0]`, `g[1]` or `g[2]` when the row is absent throws in JavaScript, hence
the `Option`: `none` is the thrown TypeError. -/
def detectWinningLines (g : List (List String)) : Option (List Line) := do
  let r0 ← g.get? 0
  let r1 ← g.get? 1
  let r2 ← g.get? 2
  let rowAt : Nat → List String := fun i => if i = 0 then r0 else if i = 1 then r1 else r2
  let rowWins : List Line := (List.range ROWS).flatMap fun r =>
    if cellD (rowAt r) 0 ≠ "" ∧ cellD (rowAt r) 0 = cellD (rowAt r) 1 ∧
        cellD (rowAt r) 1 = cellD (rowAt r) 2 then
      [[(r, 0), (r, 1), (r, 2)]]
    else []
  let colWins : List Line := (List.range COLS).flatMap fun c =>
    if cellD r0 c ≠ "" ∧ cellD r0 c = cellD r1 c ∧ cellD r1 c = cellD r2 c then
      [[(0, c), (1, c), (2, c)]]
    else []
  let diag1 : List Line :=
    if cellD r0 0 ≠ "" ∧ cellD r0 0 = cellD r1 1 ∧ cellD r1 1 = cellD r2 2 then
      [[(0, 0), (1, 1), (2, 2)]]
    else []
  let diag2 : List Line :=
    if cellD r0 2 ≠ "" ∧ cellD r0 2 = cellD r1 1 ∧ cellD r1 1 = cellD r2 0 then
      [[(0, 2), (1, 1), (2, 0)]]
    else []
  pure (rowWins ++ colWins ++ diag1 ++ diag2)

/-- `makeEmptyGrid()`: three rows of three empty-string cells. -/
def makeEmptyGrid : List (List String) :=
  List.replicate ROWS (List.replicate COLS "")

/-- `randomSymbol()`: `symbols[Math.floor(Math.random() * symbols.length)]`,
with the random floor index supplied as a `Fin symbols.length`. -/
def randomSymbol (k : Fin symbols.length) : String :=
  symbols.get k

/-- `randomGrid()`: a fresh 3x3 array of random symbols, the random index
for cell `(r, c)` supplied by the oracle `ρ`. -/
def randomGrid (ρ : Nat → Nat → Fin symbols.length) : List (List String) :=
  (List.range ROWS).map fun r => (List.range COLS).map fun c => randomSymbol (ρ r c)

/-- A flash message `addFlash(category, message)`. -/
structure Flash where
  category : String
  message : String
  deriving DecidableEq, Repr

/-- The mutable client state: the `credits` counter and the `grid`. -/
structure GameState where
  credits : Int
  grid : List (List String)
  deriving DecidableEq, Repr

/-- The initial state: `credits = 100`, `grid = makeEmptyGrid()`. -/
def initState : GameState := ⟨100, makeEmptyGrid⟩

/-- The spin click handler (after its `clearFlash()`), as a transition from
a state and a randomness oracle to the new state and the flash messages
added; `none` would be an uncaught exception.  The initial
`if (spinBtn.disabled) return` guards against re-entry during the
animation, a DOM-level concern outside this state model. -/
def spin (s : GameState) (ρ : Nat → Nat → Fin symbols.length) :
    Option (GameState × List Flash) :=
  if s.credits < SPIN_COST then
    some (s, [⟨"danger", "🚫 Not enough credits to spin."⟩])
  else do
    let credits1 := s.credits - SPIN_COST
    let g := randomGrid ρ
    let winningLines ← detectWinningLines g
    if winningLines.length > 0 then
      let reward := if winningLines.length = 1 then SINGLE_LINE_REWARD else MULTI_LINE_REWARD
      let msg :=
        if winningLines.length = 1 then
          "✅ 3-in-a-row! +" ++ toString SINGLE_LINE_REWARD ++ " credits"
        else
          "🎉 Multiple 3-in-a-rows! +" ++ toString MULTI_LINE_REWARD ++ " credits"
      pure (⟨credits1 + reward, g⟩, [⟨"success", msg⟩])
    else
      pure (⟨credits1, g⟩, [⟨"info", "No win — try again!"⟩])

/-- The reset click handler: `credits = 100; grid = makeEmptyGrid()` and a
secondary flash, for any prior state. -/
def reset (_s : GameState) : GameState × List Flash :=
  (⟨100, makeEmptyGrid⟩, [⟨"secondary", "🔄 Game reset."⟩])

/-- States reachable from the initial state by spin and reset actions. -/
inductive Reachable : GameState → Prop
  | init : Reachable initState
  | spin {s s' : GameState} {ρ : Nat → Nat → Fin symbols.length} {fl : List Flash} :
      Reachable s → spin s ρ = some (s', fl) → Reachable s'
  | reset {s s' : GameState} {fl : List Flash} :
      Reachable s → reset s = (s', fl) → Reachable s'

/-! Specification-side vocabulary. -/

/-- A grid is 3x3: three rows of three cells. -/
def IsGrid3 (g : List (List String)) : Prop :=
  g.length = 3 ∧ ∀ row ∈ g, row.length = 3

/-- The 8 fixed winning paths, in emission order: rows top to bottom,
columns left to right, main diagonal, anti-diagonal. -/
def allLines : List Line :=
  [[(0, 0), (0, 1), (0, 2)],
   [(1, 0), (1, 1), (1, 2)],
   [(2, 0), (2, 1), (2, 2)],
   [(0, 0), (1, 0), (2, 0)],
   [(0, 1), (1, 1), (2, 1)],
   [(0, 2), (1, 2), (2, 2)],
   [(0, 0), (1, 1), (2, 2)],
   [(0, 2), (1, 1), (2, 0)]]

/-- A line wins on a grid when its three referenced cells hold equal values
and that value is non-empty. -/
def winsAt (g : List (List String)) (L : Line) : Prop :=
  ∃ p1 p2 p3 : Coord, L = [p1, p2, p3] ∧
    cellVal g p1.1 p1.2 ≠ "" ∧
    cellVal g p1.1 p1.2 = cellVal g p2.1 p2.2 ∧
    cellVal g p2.1 p2.2 = cellVal g p3.1 p3.2

instance : ∀ g, Decidable (IsGrid3 g) := fun g => by
  unfold IsGrid3
  infer_instance

/-- Randomness oracle that always picks the first symbol (all-cherry grid). -/
def oracleCherry : Nat → Nat → Fin symbols.length := fun _ _ => ⟨0, by decide⟩

/-- Randomness oracle whose settled grid wins exactly the top row. -/
def oracleTopRow : Nat → Nat → Fin symbols.length :=
  fun r c => ⟨(if r = 0 then 0 else 3 * r + c - 2) % 7, Nat.mod_lt _ (by decide)⟩

/-- Randomness oracle whose settled grid has no winning line. -/
def oracleNoWin : Nat → Nat → Fin symbols.length :=
  fun r c => ⟨(3 * r + c) % 7, Nat.mod_lt _ (by decide)⟩

/-! Helper lemmas. -/

lemma isGrid3_cases {g : List (List String)} (h : IsGrid3 g) :
    ∃ a b c d e f p q r, g = [[a, b, c], [d, e, f], [p, q, r]] := by
  obtain ⟨hl, hr⟩ := h
  obtain ⟨r0, r1, r2, rfl⟩ := List.length_eq_three.mp hl
  obtain ⟨a, b, c, h0⟩ := List.length_eq_three.mp (hr r0 (by simp))
  obtain ⟨d, e, f, h1⟩ := List.length_eq_three.mp (hr r1 (by simp))
  obtain ⟨p, q, r, h2⟩ := List.length_eq_three.mp (hr r2 (by simp))
  exact ⟨a, b, c, d, e, f, p, q, r, by rw [h0, h1, h2]⟩

/-- Evaluation of `detectWinningLines` on a fully decomposed 3x3 grid: the
eight guards of the source, in emission order. -/
lemma detect_mk (a b c d e f p q r : String) :
    detectWinningLines [[a, b, c], [d, e, f], [p, q, r]] = some
      (((if a ≠ "" ∧ a = b ∧ b = c then [[(0, 0), (0, 1), (0, 2)]] else []) ++
        ((if d ≠ "" ∧ d = e ∧ e = f then [[(1, 0), (1, 1), (1, 2)]] else []) ++
         ((if p ≠ "" ∧ p = q ∧ q = r then [[(2, 0), (2, 1), (2, 2)]] else []) ++ [])) ++
       ((if a ≠ "" ∧ a = d ∧ d = p then [[(0, 0), (1, 0), (2, 0)]] else []) ++
         ((if b ≠ "" ∧ b = e ∧ e = q then [[(0, 1), (1, 1), (2, 1)]] else []) ++
          ((if c ≠ "" ∧ c = f ∧ f = r then [[(0, 2), (1, 2), (2, 2)]] else []) ++ []))) ++
       (if a ≠ "" ∧ a = e ∧ e = r then [[(0, 0), (1, 1), (2, 2)]] else []) ++
       (if c ≠ "" ∧ c = e ∧ e = p then [[(0, 2), (1, 1), (2, 0)]] else []))) := rfl

lemma mem_ite_singleton {L l : Line} {p : Prop} [Decidable p] :
    (L ∈ if p then [l] else ([] : List Line)) ↔ p ∧ L = l := by
  split <;> simp_all

lemma winsAt_triple {g : List (List String)} {x y z : Coord} :
    winsAt g [x, y, z] ↔
      cellVal g x.1 x.2 ≠ "" ∧ cellVal g x.1 x.2 = cellVal g y.1 y.2 ∧
        cellVal g y.1 y.2 = cellVal g z.1 z.2 := by
  constructor
  · rintro ⟨p1, p2, p3, heq, hw⟩
    obtain ⟨rfl, rfl, rfl⟩ : x = p1 ∧ y = p2 ∧ z = p3 := by
      simpa using heq
    exact hw
  · intro hw
    exact ⟨x, y, z, rfl, hw⟩

/-! Claim theorems. -/

/-- C1: for every 3x3 grid, `detectWinningLines` returns a line if and only
if that line is one of the 8 fixed coordinate triples and the three cells it
references hold equal, non-empty values; whence every identical non-empty
row, column or diagonal contributes its Line, and a grid with no equal
non-empty triple yields the empty result. -/
theorem C1_detect_iff_wins {g : List (List String)} {ls : List Line}
    (h3 : IsGrid3 g) (hd : detectWinningLines g = some ls) (L : Line) :
    L ∈ ls ↔ L ∈ allLines ∧ winsAt g L := by
  obtain ⟨a, b, c, d, e, f, p, q, r, rfl⟩ := isGrid3_cases h3
  rw [detect_mk] at hd
  injection hd with hd
  subst hd
  constructor
  · intro hm
    simp only [List.mem_append, mem_ite_singleton, List.not_mem_nil, or_false] at hm
    rcases hm with (((⟨hc, rfl⟩ | ⟨hc, rfl⟩ | ⟨hc, rfl⟩) | ⟨hc, rfl⟩ | ⟨hc, rfl⟩ | ⟨hc, rfl⟩) |
      ⟨hc, rfl⟩) | ⟨hc, rfl⟩ <;>
    exact ⟨by simp [allLines], winsAt_triple.mpr hc⟩
  · rintro ⟨hall, hw⟩
    simp only [allLines, List.mem_cons, List.not_mem_nil, or_false] at hall
    simp only [List.mem_append, mem_ite_singleton, List.not_mem_nil, or_false]
    rcases hall with rfl | rfl | rfl | rfl | rfl | rfl | rfl | rfl <;> rw [winsAt_triple] at hw
    · exact Or.inl (Or.inl (Or.inl (Or.inl ⟨hw, rfl⟩)))
    · exact Or.inl (Or.inl (Or.inl (Or.inr (Or.inl ⟨hw, rfl⟩))))
    · exact Or.inl (Or.inl (Or.inl (Or.inr (Or.inr ⟨hw, rfl⟩))))
    · exact Or.inl (Or.inl (Or.inr (Or.inl ⟨hw, rfl⟩)))
    · exact Or.inl (Or.inl (Or.inr (Or.inr (Or.inl ⟨hw, rfl⟩))))
    · exact Or.inl (Or.inl (Or.inr (Or.inr (Or.inr ⟨hw, rfl⟩))))
    · exact Or.inl (Or.inr ⟨hw, rfl⟩)
    · exact Or.inr ⟨hw, rfl⟩

/-- C1 witness: the spec example grid with a winning top row, instantiating
the iff at the top-row Line. -/
theorem C1_detect_iff_wins_witness :
    IsGrid3 [["🍒", "🍒", "🍒"], ["🍋", "🍇", "🔔"], ["⭐", "💎", "7️⃣"]] ∧
    detectWinningLines [["🍒", "🍒", "🍒"], ["🍋", "🍇", "🔔"], ["⭐", "💎", "7️⃣"]] =
      some [[(0, 0), (0, 1), (0, 2)]] ∧
    ([(0, 0), (0, 1), (0, 2)] ∈ [[(0, 0), (0, 1), (0, 2)]] ↔
      [(0, 0), (0, 1), (0, 2)] ∈ allLines ∧
        winsAt [["🍒", "🍒", "🍒"], ["🍋", "🍇", "🔔"], ["⭐", "💎", "7️⃣"]]
          [(0, 0), (0, 1), (0, 2)]) :=
  ⟨by decide, by decide,
    C1_detect_iff_wins (by decide) (by decide) [(0, 0), (0, 1), (0, 2)]⟩

lemma ite_singleton_sublist {p : Prop} [Decidable p] (l : Line) :
    List.Sublist (if p then [l] else []) [l] := by
  split
  · exact List.Sublist.refl _
  · exact List.nil_sublist _

/-- The result of `detectWinningLines` on a 3x3 grid is a sublist of the 8
fixed lines taken in emission order. -/
lemma detect_sublist {g : List (List String)} {ls : List Line}
    (h3 : IsGrid3 g) (hd : detectWinningLines g = some ls) :
    ls.Sublist allLines := by
  obtain ⟨a, b, c, d, e, f, p, q, r, rfl⟩ := isGrid3_cases h3
  rw [detect_mk] at hd
  injection hd with hd
  subst hd
  show List.Sublist _
    ((([[(0, 0), (0, 1), (0, 2)]] ++ ([[(1, 0), (1, 1), (1, 2)]] ++ ([[(2, 0), (2, 1), (2, 2)]] ++ []))) ++
      ([[(0, 0), (1, 0), (2, 0)]] ++ ([[(0, 1), (1, 1), (2, 1)]] ++ ([[(0, 2), (1, 2), (2, 2)]] ++ []))) ++
      [[(0, 0), (1, 1), (2, 2)]]) ++ [[(0, 2), (1, 1), (2, 0)]])
  exact
    ((((ite_singleton_sublist _).append
        ((ite_singleton_sublist _).append
          ((ite_singleton_sublist _).append (List.Sublist.refl _)))).append
      ((ite_singleton_sublist _).append
        ((ite_singleton_sublist _).append
          ((ite_singleton_sublist _).append (List.Sublist.refl _))))).append
      (ite_singleton_sublist _)).append (ite_singleton_sublist _)

lemma allLines_nodup : allLines.Nodup := by decide

/-- C4: on every 3x3 grid the emitted lines appear in the fixed order rows
top to bottom, then columns left to right, then the main diagonal, then the
anti-diagonal — i.e. the result is a sublist of `allLines`. -/
theorem C4_emission_order {g : List (List String)} {ls : List Line}
    (h3 : IsGrid3 g) (hd : detectWinningLines g = some ls) :
    ls.Sublist allLines :=
  detect_sublist h3 hd

/-- C4 witness: the spec example with a winning top row and left column,
whose two lines come out in `allLines` order. -/
theorem C4_emission_order_witness :
    IsGrid3 [["🍒", "🍒", "🍒"], ["🍒", "🔔", "⭐"], ["🍒", "💎", "7️⃣"]] ∧
    detectWinningLines [["🍒", "🍒", "🍒"], ["🍒", "🔔", "⭐"], ["🍒", "💎", "7️⃣"]] =
      some [[(0, 0), (0, 1), (0, 2)], [(0, 0), (1, 0), (2, 0)]] ∧
    [[(0, 0), (0, 1), (0, 2)], [(0, 0), (1, 0), (2, 0)]].Sublist allLines := by
  have hd : detectWinningLines [["🍒", "🍒", "🍒"], ["🍒", "🔔", "⭐"], ["🍒", "💎", "7️⃣"]] =
      some [[(0, 0), (0, 1), (0, 2)], [(0, 0), (1, 0), (2, 0)]] := by decide
  exact ⟨by decide, hd, C4_emission_order (by decide) hd⟩

/-- C9: on every 3x3 grid the result of `detectWinningLines` has no
duplicate lines, contains only the 8 fixed coordinate triples, and has
length at most 8. -/
theorem C9_result_shape {g : List (List String)} {ls : List Line}
    (h3 : IsGrid3 g) (hd : detectWinningLines g = some ls) :
    ls.Nodup ∧ (∀ L ∈ ls, L ∈ allLines) ∧ ls.length ≤ 8 := by
  have hsub := detect_sublist h3 hd
  exact ⟨allLines_nodup.sublist hsub, fun L hL => hsub.subset hL, hsub.length_le⟩

/-- C9 witness: the spec no-win example grid, whose result is the empty
list. -/
theorem C9_result_shape_witness :
    IsGrid3 [["🍒", "🍋", "🍇"], ["🔔", "⭐", "💎"], ["7️⃣", "🍒", "🍋"]] ∧
    detectWinningLines [["🍒", "🍋", "🍇"], ["🔔", "⭐", "💎"], ["7️⃣", "🍒", "🍋"]] = some [] ∧
    (List.Nodup ([] : List Line) ∧ (∀ L ∈ ([] : List Line), L ∈ allLines) ∧
      ([] : List Line).length ≤ 8) := by
  have hd : detectWinningLines [["🍒", "🍋", "🍇"], ["🔔", "⭐", "💎"], ["7️⃣", "🍒", "🍋"]] =
      some [] := by decide
  exact ⟨by decide, hd, C9_result_shape (by decide) hd⟩


lemma spin_insufficient {s : GameState} (ρ : Nat → Nat → Fin symbols.length)
    (h : s.credits < SPIN_COST) :
    spin s ρ = some (s, [⟨"danger", "🚫 Not enough credits to spin."⟩]) := by
  simp [spin, h]

lemma randomGrid_mk (ρ : Nat → Nat → Fin symbols.length) :
    randomGrid ρ =
      [[randomSymbol (ρ 0 0), randomSymbol (ρ 0 1), randomSymbol (ρ 0 2)],
       [randomSymbol (ρ 1 0), randomSymbol (ρ 1 1), randomSymbol (ρ 1 2)],
       [randomSymbol (ρ 2 0), randomSymbol (ρ 2 1), randomSymbol (ρ 2 2)]] := rfl

lemma detect_randomGrid (ρ : Nat → Nat → Fin symbols.length) :
    ∃ wl, detectWinningLines (randomGrid ρ) = some wl := by
  rw [randomGrid_mk]
  exact ⟨_, detect_mk _ _ _ _ _ _ _ _ _⟩

lemma spin_sufficient {s : GameState} {ρ : Nat → Nat → Fin symbols.length} {wl : List Line}
    (h : ¬ s.credits < SPIN_COST)
    (hwl : detectWinningLines (randomGrid ρ) = some wl) :
    spin s ρ = some
      (⟨s.credits - SPIN_COST +
          (if wl.length > 0 then
            (if wl.length = 1 then SINGLE_LINE_REWARD else MULTI_LINE_REWARD) else 0),
        randomGrid ρ⟩,
       if wl.length > 0 then
         [⟨"success",
           if wl.length = 1 then "✅ 3-in-a-row! +" ++ toString SINGLE_LINE_REWARD ++ " credits"
           else "🎉 Multiple 3-in-a-rows! +" ++ toString MULTI_LINE_REWARD ++ " credits"⟩]
       else [⟨"info", "No win — try again!"⟩]) := by
  simp only [spin, if_neg h, hwl, Option.bind_eq_bind, Option.some_bind]
  split_ifs with h1 <;> simp


lemma spin_cases {s s' : GameState} {ρ : Nat → Nat → Fin symbols.length} {fl : List Flash}
    (h : spin s ρ = some (s', fl)) :
    (s.credits < SPIN_COST ∧ s' = s) ∨
    (¬ s.credits < SPIN_COST ∧ ∃ wl, detectWinningLines (randomGrid ρ) = some wl ∧
      s'.grid = randomGrid ρ ∧
      s'.credits = s.credits - SPIN_COST +
        (if wl.length > 0 then
          (if wl.length = 1 then SINGLE_LINE_REWARD else MULTI_LINE_REWARD) else 0)) := by
  by_cases hc : s.credits < SPIN_COST
  · left
    rw [spin_insufficient ρ hc] at h
    injection h with h
    injection h with h1 h2
    exact ⟨hc, h1.symm⟩
  · right
    obtain ⟨wl, hwl⟩ := detect_randomGrid ρ
    rw [spin_sufficient hc hwl] at h
    injection h with h
    injection h with h1 h2
    subst h1
    exact ⟨hc, wl, hwl, rfl, rfl⟩


/-- C3: a spin attempted with credits below the spin cost is rejected: the
state (credits and grid) is returned unchanged, only the danger flash is
emitted, and the outcome does not depend on the randomness oracle. -/
theorem C3_reject {s : GameState} (ρ : Nat → Nat → Fin symbols.length)
    (h : s.credits < SPIN_COST) :
    spin s ρ = some (s, [⟨"danger", "🚫 Not enough credits to spin."⟩]) :=
  spin_insufficient ρ h

/-- C3 witness: a 5-credit state is rejected unchanged. -/
theorem C3_reject_witness :
    (⟨5, makeEmptyGrid⟩ : GameState).credits < SPIN_COST ∧
    spin ⟨5, makeEmptyGrid⟩ (fun _ _ => ⟨0, by decide⟩) =
      some (⟨5, makeEmptyGrid⟩, [⟨"danger", "🚫 Not enough credits to spin."⟩]) :=
  ⟨by decide, C3_reject (fun _ _ => ⟨0, by decide⟩) (by decide)⟩

/-- C2: for a spin that passes the credit precondition, the reward added on
top of the charged cost depends only on the number of winning lines: zero
lines pay 0, one line pays the flat 50, two or more lines pay the flat 100
(never a per-line sum). -/
theorem C2_payout_policy {s s' : GameState} {ρ : Nat → Nat → Fin symbols.length}
    {fl : List Flash} {wl : List Line}
    (hpre : SPIN_COST ≤ s.credits) (hspin : spin s ρ = some (s', fl))
    (hwl : detectWinningLines (randomGrid ρ) = some wl) :
    s'.credits - (s.credits - SPIN_COST) =
      (if wl.length = 0 then 0
       else if wl.length = 1 then SINGLE_LINE_REWARD else MULTI_LINE_REWARD) := by
  rcases spin_cases hspin with ⟨hlt, _⟩ | ⟨_, wl2, hwl2, _, hcred⟩
  · exact absurd hlt (not_lt.mpr hpre)
  · rw [hwl] at hwl2
    injection hwl2 with e
    subst e
    rw [hcred]
    simp only [SPIN_COST, SINGLE_LINE_REWARD, MULTI_LINE_REWARD]
    split_ifs <;> omega

/-- C6: a spin that passes the credit precondition ends with credits equal
to the old credits minus the cost plus the payout of the new grid, and
stores exactly the freshly randomized grid that was evaluated. -/
theorem C6_spin_accounting {s s' : GameState} {ρ : Nat → Nat → Fin symbols.length}
    {fl : List Flash} {wl : List Line}
    (hpre : SPIN_COST ≤ s.credits) (hspin : spin s ρ = some (s', fl))
    (hwl : detectWinningLines (randomGrid ρ) = some wl) :
    s'.credits = s.credits - SPIN_COST +
      (if wl.length = 0 then 0
       else if wl.length = 1 then SINGLE_LINE_REWARD else MULTI_LINE_REWARD) ∧
    s'.grid = randomGrid ρ := by
  rcases spin_cases hspin with ⟨hlt, _⟩ | ⟨_, wl2, hwl2, hg, hcred⟩
  · exact absurd hlt (not_lt.mpr hpre)
  · rw [hwl] at hwl2
    injection hwl2 with e
    subst e
    refine ⟨?_, hg⟩
    rw [hcred]
    simp only [SPIN_COST, SINGLE_LINE_REWARD, MULTI_LINE_REWARD]
    split_ifs <;> omega

/-- C7: credits are non-negative in every reachable state. -/
theorem C7_credits_nonneg {s : GameState} (h : Reachable s) : 0 ≤ s.credits := by
  induction h with
  | init => norm_num [initState]
  | spin hr hsp ih =>
    rcases spin_cases hsp with ⟨_, rfl⟩ | ⟨hge, wl, hwl, hg, hcred⟩
    · exact ih
    · rw [hcred]
      have hc := not_lt.mp hge
      simp only [SPIN_COST, SINGLE_LINE_REWARD, MULTI_LINE_REWARD] at hc ⊢
      split_ifs <;> omega
  | reset hr hre ih =>
    rename_i s0 s1 fl0
    have h1 : (reset s0).1 = s1 := congrArg Prod.fst hre
    rw [← h1]
    norm_num [reset]

/-- C7 witness: the initial state is reachable and has non-negative
credits. -/
theorem C7_credits_nonneg_witness : Reachable initState ∧ 0 ≤ initState.credits :=
  ⟨Reachable.init, C7_credits_nonneg Reachable.init⟩


lemma randomSymbol_mem (k : Fin symbols.length) : randomSymbol k ∈ symbols :=
  List.get_mem symbols k.1 k.2

lemma symbols_ne_empty : ∀ x ∈ symbols, x ≠ "" := by decide

/-- C8: after a completed spin the stored grid is exactly 3x3 and every
cell holds one of the 7 alphabet symbols (hence no cell is empty), for
every outcome of the random choices. -/
theorem C8_grid_after_spin {s s' : GameState} {ρ : Nat → Nat → Fin symbols.length}
    {fl : List Flash}
    (hpre : SPIN_COST ≤ s.credits) (hspin : spin s ρ = some (s', fl)) :
    IsGrid3 s'.grid ∧ ∀ r c, r < 3 → c < 3 →
      cellVal s'.grid r c ∈ symbols ∧ cellVal s'.grid r c ≠ "" := by
  rcases spin_cases hspin with ⟨hlt, _⟩ | ⟨_, wl, hwl, hg, _⟩
  · exact absurd hlt (not_lt.mpr hpre)
  · rw [hg, randomGrid_mk]
    refine ⟨⟨rfl, fun row hrow => ?_⟩, fun r c hr hc => ?_⟩
    · simp only [List.mem_cons, List.not_mem_nil, or_false] at hrow
      rcases hrow with rfl | rfl | rfl <;> rfl
    · interval_cases r <;> interval_cases c <;>
        exact ⟨randomSymbol_mem _, symbols_ne_empty _ (randomSymbol_mem _)⟩

/-- C5: reset sets credits to 100 and every cell of the grid to empty,
unconditionally, whatever the prior state was. -/
theorem C5_reset_state (s : GameState) :
    reset s =
      (⟨100, [["", "", ""], ["", "", ""], ["", "", ""]]⟩,
       [⟨"secondary", "🔄 Game reset."⟩]) := rfl

/-- C10: `detectWinningLines` is total on 3x3 grids and reads only the
cells at row and column indices 0 through 2: it returns a result on every
3x3 grid, and two 3x3 grids agreeing on those cells get equal results. -/
theorem C10_total_inbounds {g : List (List String)} (h3 : IsGrid3 g) :
    (detectWinningLines g).isSome = true ∧
    ∀ g', IsGrid3 g' → (∀ r c, r < 3 → c < 3 → cellVal g r c = cellVal g' r c) →
      detectWinningLines g = detectWinningLines g' := by
  obtain ⟨a, b, c, d, e, f, p, q, r, rfl⟩ := isGrid3_cases h3
  refine ⟨by rw [detect_mk]; rfl, ?_⟩
  intro g' h3' hcell
  obtain ⟨a2, b2, c2, d2, e2, f2, p2, q2, r2, rfl⟩ := isGrid3_cases h3'
  have e00 : a = a2 := hcell 0 0 (by omega) (by omega)
  have e01 : b = b2 := hcell 0 1 (by omega) (by omega)
  have e02 : c = c2 := hcell 0 2 (by omega) (by omega)
  have e10 : d = d2 := hcell 1 0 (by omega) (by omega)
  have e11 : e = e2 := hcell 1 1 (by omega) (by omega)
  have e12 : f = f2 := hcell 1 2 (by omega) (by omega)
  have e20 : p = p2 := hcell 2 0 (by omega) (by omega)
  have e21 : q = q2 := hcell 2 1 (by omega) (by omega)
  have e22 : r = r2 := hcell 2 2 (by omega) (by omega)
  subst e00 e01 e02 e10 e11 e12 e20 e21 e22
  rfl

/-- C10 witness: a concrete all-star grid. -/
theorem C10_total_inbounds_witness :
    IsGrid3 [["⭐", "⭐", "⭐"], ["⭐", "⭐", "⭐"], ["⭐", "⭐", "⭐"]] ∧
    ((detectWinningLines [["⭐", "⭐", "⭐"], ["⭐", "⭐", "⭐"], ["⭐", "⭐", "⭐"]]).isSome = true ∧
     ∀ g', IsGrid3 g' →
       (∀ r c, r < 3 → c < 3 →
         cellVal [["⭐", "⭐", "⭐"], ["⭐", "⭐", "⭐"], ["⭐", "⭐", "⭐"]] r c = cellVal g' r c) →
       detectWinningLines [["⭐", "⭐", "⭐"], ["⭐", "⭐", "⭐"], ["⭐", "⭐", "⭐"]] =
         detectWinningLines g') :=
  ⟨by decide, C10_total_inbounds (by decide)⟩


/-- C2 witness: an all-cherry spin wins all 8 lines and pays the flat 100,
not a per-line sum. -/
theorem C2_payout_policy_witness :
    SPIN_COST ≤ initState.credits ∧
    spin initState oracleCherry =
      some (⟨190, randomGrid oracleCherry⟩,
        [⟨"success", "🎉 Multiple 3-in-a-rows! +100 credits"⟩]) ∧
    detectWinningLines (randomGrid oracleCherry) = some allLines ∧
    ((⟨190, randomGrid oracleCherry⟩ : GameState).credits - (initState.credits - SPIN_COST) =
      if allLines.length = 0 then 0
      else if allLines.length = 1 then SINGLE_LINE_REWARD else MULTI_LINE_REWARD) := by
  have hspin : spin initState oracleCherry =
      some (⟨190, randomGrid oracleCherry⟩,
        [⟨"success", "🎉 Multiple 3-in-a-rows! +100 credits"⟩]) := by decide
  have hwl : detectWinningLines (randomGrid oracleCherry) = some allLines := by decide
  exact ⟨by decide, hspin, hwl, C2_payout_policy (by decide) hspin hwl⟩

/-- C6 witness: a single-line win from 47 credits settles at 47 - 10 + 50 =
87 credits with the evaluated grid stored. -/
theorem C6_spin_accounting_witness :
    SPIN_COST ≤ (⟨47, makeEmptyGrid⟩ : GameState).credits ∧
    spin ⟨47, makeEmptyGrid⟩ oracleTopRow =
      some (⟨87, randomGrid oracleTopRow⟩, [⟨"success", "✅ 3-in-a-row! +50 credits"⟩]) ∧
    detectWinningLines (randomGrid oracleTopRow) = some [[(0, 0), (0, 1), (0, 2)]] ∧
    ((⟨87, randomGrid oracleTopRow⟩ : GameState).credits =
      (⟨47, makeEmptyGrid⟩ : GameState).credits - SPIN_COST +
        (if ([[(0, 0), (0, 1), (0, 2)]] : List Line).length = 0 then 0
         else if ([[(0, 0), (0, 1), (0, 2)]] : List Line).length = 1 then SINGLE_LINE_REWARD
         else MULTI_LINE_REWARD) ∧
     (⟨87, randomGrid oracleTopRow⟩ : GameState).grid = randomGrid oracleTopRow) := by
  have hspin : spin ⟨47, makeEmptyGrid⟩ oracleTopRow =
      some (⟨87, randomGrid oracleTopRow⟩, [⟨"success", "✅ 3-in-a-row! +50 credits"⟩]) := by
    decide
  have hwl : detectWinningLines (randomGrid oracleTopRow) =
      some [[(0, 0), (0, 1), (0, 2)]] := by decide
  exact ⟨by decide, hspin, hwl, C6_spin_accounting (by decide) hspin hwl⟩

/-- C8 witness: a no-win spin from exactly 10 credits still stores a fully
populated 3x3 symbol grid. -/
theorem C8_grid_after_spin_witness :
    SPIN_COST ≤ (⟨10, makeEmptyGrid⟩ : GameState).credits ∧
    spin ⟨10, makeEmptyGrid⟩ oracleNoWin =
      some (⟨0, randomGrid oracleNoWin⟩, [⟨"info", "No win — try again!"⟩]) ∧
    (IsGrid3 (⟨0, randomGrid oracleNoWin⟩ : GameState).grid ∧ ∀ r c, r < 3 → c < 3 →
      cellVal (⟨0, randomGrid oracleNoWin⟩ : GameState).grid r c ∈ symbols ∧
      cellVal (⟨0, randomGrid oracleNoWin⟩ : GameState).grid r c ≠ "") := by
  have hspin : spin ⟨10, makeEmptyGrid⟩ oracleNoWin =
      some (⟨0, randomGrid oracleNoWin⟩, [⟨"info", "No win — try again!"⟩]) := by decide
  exact ⟨by decide, hspin, C8_grid_after_spin (by decide) hspin⟩

end SlotMachine





